import Mathlib

/-!
Verification of the internal directory service (`src/main.py`, `src/database.py`).

The Python source is shallowly embedded as pure Lean functions:
* the session middleware's per-request session dict only ever holds the key
  `"user"`, so a session state is `Option String` (the stored username);
* the SQLite `employees` table is a `List Employee` in insertion order
  (SQLite returns rows of an unordered query in rowid = insertion order);
* each FastAPI handler becomes a function from its inputs and the current
  state to a `Response` (the observable outcome) and the resulting state;
* SQLAlchemy's `ilike` with the interpolated pattern `f"%{q}%"` is embedded
  as SQL `LIKE` pattern matching (`likeMatch`), case-insensitive on ASCII
  letters — exactly SQLite's semantics for `lower(col) LIKE lower(pat)`:
  `%` matches any sequence, `_` matches exactly one character.
-/

namespace DirectoryService

/-- Roles are the strings `"admin"` / `"employee"` from the `USERS` dict. -/
abbrev Role := String

/-- The two bcrypt hashes computed at module load:
`ADMIN_HASH = bcrypt.hashpw("adminpass", ...)`, `USER_HASH = bcrypt.hashpw("userpass", ...)`. -/
inductive HashVal where
  | adminHash
  | userHash
  deriving DecidableEq, Repr

/-- Python library call `bcrypt.checkpw(password, hash)`: verification
succeeds exactly when the plaintext equals the password that was hashed
(bcrypt is assumed correct, i.e. collision-free on these two values). -/
def checkpw (password : String) (h : HashVal) : Bool :=
  match h with
  | .adminHash => password == "adminpass"
  | .userHash => password == "userpass"

/-- One entry of the hardcoded `USERS` dict. -/
structure UserRec where
  password_hash : HashVal
  role : Role
  name : String
  deriving DecidableEq, Repr

/-- The hardcoded `USERS` table of `src/main.py`. -/
def USERS : List (String × UserRec) :=
  [("admin", ⟨.adminHash, "admin", "System Administrator"⟩),
   ("employee", ⟨.userHash, "employee", "John Doe"⟩)]

/-- Dict lookup `USERS.get(username)` (equivalently the combination of
`username in USERS` and `USERS[username]`). -/
def lookupUser (username : String) : Option UserRec :=
  (USERS.find? (fun p => p.1 == username)).map (fun p => p.2)

/-- One row of the `employees` table (`src/database.py`); `id` is the list
position in the store, so it is not carried in the record. -/
structure Employee where
  name : String
  department : String
  email : String
  phone : String
  job_title : String
  deriving DecidableEq, Repr

/-- The observable response of a handler. -/
inductive Response where
  /-- Rendering of `login.html` with its error payload. -/
  | loginPage (error : Option String)
  /-- Redirect via `RedirectResponse(url=...)`. -/
  | redirect (url : String)
  /-- Rendering of `directory.html` with its payload. -/
  | directoryPage (employees : List Employee) (user : UserRec) (q : Option String)
  /-- Rendering of `add_employee.html` with its error payload. -/
  | addEmployeePage (user : UserRec) (error : Option String)
  deriving DecidableEq, Repr

/-- Helper `get_current_user` (src/main.py:81-85): read `session["user"]`;
Python truthiness makes both a missing key and the empty string fall through
to `None`, and the handle must be a key of `USERS`. -/
def get_current_user (session : Option String) : Option UserRec :=
  match session with
  | none => none
  | some user_id => if user_id == "" then none else lookupUser user_id

/-- Handler `login` (src/main.py:98-109): on unknown handle or failed
`bcrypt.checkpw`, re-render the login page with "Invalid credentials" and
leave the session alone; on success store the username in the session and
redirect to the directory. -/
def login (session : Option String) (username password : String) :
    Response × Option String :=
  match lookupUser username with
  | none => (.loginPage (some "Invalid credentials"), session)
  | some user =>
    if checkpw password user.password_hash then
      (.redirect "/directory", some username)
    else
      (.loginPage (some "Invalid credentials"), session)

/-- Handler `logout` (src/main.py:111-114): `request.session.clear()` then a
redirect to the login page, whatever the previous session was. -/
def logout (_session : Option String) : Response × Option String :=
  (.redirect "/login", none)

/-- Semantics of SQL `LIKE` with SQLite's default ASCII case-insensitivity
(what SQLAlchemy's `ilike` compiles to): `%` matches any sequence of
characters (the rest of the pattern must then match some suffix of the
text), `_` matches exactly one character, and any other pattern character
matches a text character equal to it up to ASCII case. -/
def likeMatch : List Char → List Char → Bool
  | [], s => s.isEmpty
  | a :: p, s =>
    if a = '%' then
      s.tails.any (fun t => likeMatch p t)
    else
      match s with
      | [] => false
      | c :: s' => (if a = '_' then true else a.toLower == c.toLower) && likeMatch p s'

/-- Row filter of `directory` (src/main.py:124-129): the raw query term is
interpolated into the pattern `f"%{q}%"` and tested with `ilike` against
`name`, `department` and `job_title`, joined by `|`. -/
def matchesQuery (q : String) (e : Employee) : Bool :=
  let pat := '%' :: q.data ++ ['%']
  likeMatch pat e.name.data || likeMatch pat e.department.data ||
    likeMatch pat e.job_title.data

/-- Query logic of `directory` (src/main.py:122-131): `if q:` is Python
truthiness, so a missing or empty term skips the filter and `query.all()`
returns the whole store in order; otherwise rows are filtered in order. -/
def searchEmployees (q : Option String) (store : List Employee) : List Employee :=
  if q.getD "" == "" then store
  else store.filter (matchesQuery (q.getD ""))

/-- Handler `directory` (src/main.py:116-137): unauthenticated requests are
redirected to `/login` before any search logic runs. -/
def directory (session : Option String) (q : Option String)
    (store : List Employee) : Response :=
  match get_current_user session with
  | none => .redirect "/login"
  | some user => .directoryPage (searchEmployees q store) user q

/-- The failures `db.commit()` can raise in `add_employee`: the
`IntegrityError` from the UNIQUE constraint on `email`
(src/database.py:24), or any other store failure. -/
inductive StoreError where
  | duplicateKey
  | unavailable
  deriving DecidableEq, Repr

/-- Record fields posted to `add_employee`. -/
structure EmployeeForm where
  name : String
  department : String
  email : String
  phone : String
  job_title : String
  deriving DecidableEq, Repr

/-- Store commit `db.add(new_employee); db.commit()`: the UNIQUE constraint
on `email` rejects a duplicate; `fault` injects any other store failure
(the "StoreUnavailable" case of the spec's error taxonomy, which is
environmental and therefore a parameter of the embedding). -/
def insertEmployee (store : List Employee) (e : Employee) (fault : Bool) :
    Except StoreError (List Employee) :=
  if fault then .error .unavailable
  else if store.any (fun r => r.email == e.email) then .error .duplicateKey
  else .ok (store ++ [e])

/-- Handler `add_employee` (src/main.py:147-179): redirect unless the
session resolves to an admin; otherwise insert, and on any exception from
`db.commit()` (the handler is `except Exception`, not a specific catch)
roll back and re-render the form with the duplicate-email error message. -/
def add_employee (session : Option String) (form : EmployeeForm)
    (store : List Employee) (fault : Bool) : Response × List Employee :=
  match get_current_user session with
  | none => (.redirect "/directory", store)
  | some user =>
    if user.role != "admin" then
      (.redirect "/directory", store)
    else
      let newEmployee : Employee :=
        ⟨form.name, form.department, form.email, form.phone, form.job_title⟩
      match insertEmployee store newEmployee fault with
      | .ok store' => (.redirect "/directory", store')
      | .error _ =>
        (.addEmployeePage user (some "Error adding employee. Email might already exist."),
         store)

/-- The ten rows seeded by `seed_data` (src/main.py:57-72), in insertion
order. -/
def seededEmployees : List Employee :=
  [⟨"Alice Smith", "Engineering", "alice@company.com", "555-0101", "Senior Engineer"⟩,
   ⟨"Bob Jones", "Engineering", "bob@company.com", "555-0102", "Software Developer"⟩,
   ⟨"Charlie Brown", "HR", "charlie@company.com", "555-0103", "HR Manager"⟩,
   ⟨"David Wilson", "Sales", "david@company.com", "555-0104", "Sales Director"⟩,
   ⟨"Eve Davis", "Engineering", "eve@company.com", "555-0105", "DevOps Engineer"⟩,
   ⟨"Frank Miller", "Sales", "frank@company.com", "555-0106", "Account Executive"⟩,
   ⟨"Grace Lee", "HR", "grace@company.com", "555-0107", "Recruiter"⟩,
   ⟨"Hank Green", "Engineering", "hank@company.com", "555-0108", "QA Engineer"⟩,
   ⟨"Ivy White", "Marketing", "ivy@company.com", "555-0109", "Marketing Lead"⟩,
   ⟨"Jack Black", "Marketing", "jack@company.com", "555-0110", "Content Creator"⟩]

/-- Modelled from the spec: "the term occurs as a case-insensitive substring
of `name` OR `department` OR `job_title`" — literal substring containment
after ASCII lowercasing, with no wildcard interpretation of the term. -/
def specMatches (q : String) (e : Employee) : Bool :=
  decide ((q.data.map Char.toLower) <:+: (e.name.data.map Char.toLower)) ||
  decide ((q.data.map Char.toLower) <:+: (e.department.data.map Char.toLower)) ||
  decide ((q.data.map Char.toLower) <:+: (e.job_title.data.map Char.toLower))

/-- A query term is wildcard-free when it contains neither `%` nor `_`. -/
def noWild (q : List Char) : Bool :=
  q.all (fun c => !(c == '%') && !(c == '_'))

/-! ### Lemmas relating `LIKE` pattern matching to substring containment -/

/-- A pattern starting with `%` matches a text iff its tail matches some
suffix of the text. -/
lemma likeMatch_percent (p : List Char) (s : List Char) :
    likeMatch ('%' :: p) s = true ↔ ∃ t, t <:+ s ∧ likeMatch p t = true := by
  simp [likeMatch, List.any_eq_true, List.mem_tails]

/-- A wildcard-free pattern followed by `%` matches a text iff the pattern
is, up to ASCII case, a prefix of the text. -/
lemma likeMatch_lit (q : List Char) (hq : noWild q = true) (s : List Char) :
    likeMatch (q ++ ['%']) s = true ↔
      q.map Char.toLower <+: s.map Char.toLower := by
  induction q generalizing s with
  | nil =>
    simp only [List.nil_append, List.map_nil, List.nil_prefix, iff_true]
    rw [show (['%'] : List Char) = '%' :: [] from rfl, likeMatch_percent]
    exact ⟨[], List.nil_suffix, rfl⟩
  | cons a q ih =>
    simp only [noWild, List.all_cons, Bool.and_eq_true, Bool.not_eq_true',
      beq_eq_false_iff_ne, ne_eq] at hq
    obtain ⟨⟨ha1, ha2⟩, hq'⟩ := hq
    cases s with
    | nil =>
      simp [likeMatch, ha1, List.prefix_nil]
    | cons c s' =>
      simp only [List.cons_append, likeMatch, if_neg ha1, if_neg ha2,
        Bool.and_eq_true, beq_iff_eq, List.map_cons, List.cons_prefix_cons,
        List.append_eq]
      rw [ih hq']

/-- For a wildcard-free term `q`, the pattern `%q%` matches a text iff `q`
occurs, up to ASCII case, as a substring (infix) of the text. -/
lemma likeMatch_infix (q s : List Char) (hq : noWild q = true) :
    likeMatch ('%' :: q ++ ['%']) s = true ↔
      q.map Char.toLower <:+: s.map Char.toLower := by
  rw [show ('%' :: q ++ ['%']) = '%' :: (q ++ ['%']) from rfl, likeMatch_percent]
  constructor
  · rintro ⟨t, hts, hm⟩
    rw [likeMatch_lit q hq] at hm
    exact List.infix_iff_prefix_suffix.mpr ⟨t.map Char.toLower, hm, hts.map _⟩
  · intro h
    obtain ⟨t', hpre, hsuf⟩ := List.infix_iff_prefix_suffix.mp h
    obtain ⟨u, hu⟩ := hsuf
    refine ⟨s.drop u.length, List.drop_suffix _ _, ?_⟩
    rw [likeMatch_lit q hq, List.map_drop, ← hu, List.drop_left]
    exact hpre

/-! ### Claim theorems -/

/-- C1: for every session state, record-field input, store and store-fault
environment, if the session does not resolve to an identity whose role is
`"admin"` (it is unauthenticated or resolves to a non-admin), then
`add_employee` is rejected with a redirect and the record store is returned
completely unchanged — the write never reaches the store. -/
theorem add_employee_nonadmin_rejected (session : Option String)
    (form : EmployeeForm) (store : List Employee) (fault : Bool)
    (h : ∀ u, get_current_user session = some u → u.role ≠ "admin") :
    add_employee session form store fault = (.redirect "/directory", store) := by
  unfold add_employee
  cases hu : get_current_user session with
  | none => rfl
  | some u =>
    have hr : (u.role != "admin") = true := by
      simp [h u hu]
    dsimp only
    rw [if_pos hr]

/-- Witness for C1: a session logged in as "employee" attempting to add a
record is rejected and the seeded store is unchanged. -/
theorem add_employee_nonadmin_rejected_witness :
    add_employee (some "employee") ⟨"X", "Y", "x@y", "1", "T"⟩ seededEmployees false =
      (.redirect "/directory", seededEmployees) := by
  apply add_employee_nonadmin_rejected
  intro u hu
  have hc : get_current_user (some "employee") =
      some ⟨.userHash, "employee", "John Doe"⟩ := rfl
  rw [hc] at hu
  cases hu
  decide

/-- C2 as stated is false: because the raw term is interpolated into the
`ilike` pattern, a `%` in the term acts as a wildcard rather than a literal
substring character. With the single record named "aXb" and the term
"a%b", the code returns the record although "a%b" is not a case-insensitive
substring of any searched field. -/
theorem search_substring_claim_counterexample :
    ¬ (searchEmployees (some "a%b") [⟨"aXb", "", "z", "1", ""⟩] =
        [(⟨"aXb", "", "z", "1", ""⟩ : Employee)].filter (specMatches "a%b")) := by
  decide

/-- C2 (amended): for every store and every non-empty query term containing
no SQL LIKE wildcard character (`%` or `_`), the search returns exactly the
records in which the term occurs as a case-insensitive substring of `name`,
`department` or `job_title` (logical OR — `email` and `phone` are never
consulted), in the store's order restricted to the matches. -/
theorem search_matches_ci_substring (store : List Employee) (q : String)
    (hq : noWild q.data = true) (hne : q ≠ "") :
    searchEmployees (some q) store = store.filter (specMatches q) := by
  unfold searchEmployees
  have hq0 : ((some q).getD "" == "") = false := by
    simp only [Option.getD_some]
    exact beq_eq_false_iff_ne.mpr hne
  simp only [Option.getD_some] at hq0 ⊢
  rw [if_neg (by simp [hq0])]
  apply List.filter_congr
  intro e _
  unfold matchesQuery specMatches
  have h1 := likeMatch_infix q.data e.name.data hq
  have h2 := likeMatch_infix q.data e.department.data hq
  have h3 := likeMatch_infix q.data e.job_title.data hq
  rw [Bool.eq_iff_iff]
  simp only [Bool.or_eq_true, decide_eq_true_eq]
  rw [h1, h2, h3]

/-- Witness for C2 (amended): the wildcard-free term "Alice" filters the
seeded store exactly by case-insensitive substring containment. -/
theorem search_matches_ci_substring_witness :
    searchEmployees (some "Alice") seededEmployees =
      seededEmployees.filter (specMatches "Alice") :=
  search_matches_ci_substring seededEmployees "Alice" (by decide) (by decide)

/-- C3: an `add_employee` by an admin whose email duplicates an existing
record's email hits the store's uniqueness violation, which is caught; the
store (hence its record count) is returned unchanged and the user-facing
duplicate-email error page is rendered instead of a generic failure. -/
theorem add_employee_duplicate_email_handled (session : Option String)
    (u : UserRec) (form : EmployeeForm) (store : List Employee)
    (hu : get_current_user session = some u) (hr : u.role = "admin")
    (hd : store.any (fun r => r.email == form.email) = true) :
    add_employee session form store false =
      (.addEmployeePage u (some "Error adding employee. Email might already exist."),
       store) := by
  simp [add_employee, hu, hr, insertEmployee, hd]

/-- Witness for C3: the admin re-adding email "alice@company.com" against
the seeded store gets the duplicate error page and an unchanged store. -/
theorem add_employee_duplicate_email_handled_witness :
    add_employee (some "admin")
        ⟨"Alice Clone", "Engineering", "alice@company.com", "555-9999", "Engineer"⟩
        seededEmployees false =
      (.addEmployeePage ⟨.adminHash, "admin", "System Administrator"⟩
        (some "Error adding employee. Email might already exist."), seededEmployees) := by
  apply add_employee_duplicate_email_handled <;> rfl

/-- C4 as stated is false: the handler catches every exception
(`except Exception`), so a store failure that is not a duplicate-key
violation (here injected against an empty store, where no duplicate is
possible) is not propagated to the boundary — it is converted into the very
same user-facing duplicate-condition error page. -/
theorem add_employee_store_failure_counterexample :
    (add_employee (some "admin")
        ⟨"New Person", "Ops", "new@company.com", "555-0000", "Operator"⟩
        [] true).1 =
      .addEmployeePage ⟨.adminHash, "admin", "System Administrator"⟩
        (some "Error adding employee. Email might already exist.") := by
  decide

/-- C4 (amended): for every store failure during `add_employee` other than
a duplicate-key violation, the core recovers locally exactly as it does for
a duplicate: it rolls back (the store is unchanged) and renders the same
user-facing error page; the failure is never propagated to the boundary. -/
theorem add_employee_store_failure_handled_locally (session : Option String)
    (u : UserRec) (form : EmployeeForm) (store : List Employee)
    (hu : get_current_user session = some u) (hr : u.role = "admin") :
    add_employee session form store true =
      (.addEmployeePage u (some "Error adding employee. Email might already exist."),
       store) := by
  simp [add_employee, hu, hr, insertEmployee]

/-- Witness for C4 (amended): an injected non-duplicate store failure on an
admin request yields the error page and an unchanged store. -/
theorem add_employee_store_failure_handled_locally_witness :
    add_employee (some "admin") ⟨"X", "Y", "x@y", "1", "T"⟩ seededEmployees true =
      (.addEmployeePage ⟨.adminHash, "admin", "System Administrator"⟩
        (some "Error adding employee. Email might already exist."), seededEmployees) := by
  apply add_employee_store_failure_handled_locally <;> rfl

/-- C5: a login with an unknown handle (any secret) and a login with a
known handle but a wrong secret produce identical observable outcomes —
the same "Invalid credentials" response and the same session — so the
caller cannot tell which part was wrong. -/
theorem login_failures_indistinguishable (session : Option String)
    (h1 p1 h2 p2 : String) (u : UserRec)
    (hunk : lookupUser h1 = none)
    (hknown : lookupUser h2 = some u)
    (hwrong : checkpw p2 u.password_hash = false) :
    login session h1 p1 = login session h2 p2 := by
  simp [login, hunk, hknown, hwrong]

/-- Witness for C5: an unknown handle "ghost" and the known handle "admin"
with a wrong password yield the same outcome. -/
theorem login_failures_indistinguishable_witness :
    login none "ghost" "anything" = login none "admin" "wrongpass" := by
  apply login_failures_indistinguishable
    (u := ⟨.adminHash, "admin", "System Administrator"⟩) <;> rfl

/-- C6: resolving the session produced by a successful login immediately
returns the identity that was logged in (`resolve` after `create`
round-trips). -/
theorem resolve_after_login_roundtrip (session : Option String)
    (username password : String) (u : UserRec)
    (hk : lookupUser username = some u)
    (hok : checkpw password u.password_hash = true) :
    get_current_user (login session username password).2 = some u := by
  simp only [login, hk, hok, if_true]
  have hne : (username == "") = false := by
    apply beq_eq_false_iff_ne.mpr
    intro h
    rw [h] at hk
    simp [lookupUser, USERS] at hk
  simp [get_current_user, hne, hk]

/-- Witness for C6: logging in as "admin" with the correct password and
resolving the resulting session returns the admin identity. -/
theorem resolve_after_login_roundtrip_witness :
    get_current_user (login none "admin" "adminpass").2 =
      some ⟨.adminHash, "admin", "System Administrator"⟩ := by
  apply resolve_after_login_roundtrip <;> rfl

/-- C7: resolving a session after `logout` returns `none`, exactly as
resolving a never-existing session does, and `logout` is idempotent —
destroying an already-destroyed session is a no-op producing the same
outcome, never a failure. -/
theorem logout_resolves_none_and_idempotent (session : Option String) :
    get_current_user (logout session).2 = none ∧
    get_current_user (logout session).2 = get_current_user none ∧
    logout ((logout session).2) = logout session :=
  ⟨rfl, rfl, rfl⟩

/-- C8: with an empty or absent query term the directory returns all
records in store order for any authenticated session, and with no valid
session the request is redirected to the login page before the search
logic is reached. -/
theorem directory_empty_query_returns_all (session : Option String)
    (q : Option String) (store : List Employee)
    (hq : q.getD "" = "") :
    (get_current_user session = none →
      directory session q store = .redirect "/login") ∧
    (∀ u, get_current_user session = some u →
      directory session q store = .directoryPage store u q) := by
  constructor
  · intro h
    simp [directory, h]
  · intro u h
    simp [directory, h, searchEmployees, hq]

/-- Witness for C8: an authenticated "employee" session with no query term
receives all ten seeded records in order. -/
theorem directory_empty_query_returns_all_witness :
    directory (some "employee") none seededEmployees =
      .directoryPage seededEmployees ⟨.userHash, "employee", "John Doe"⟩ none :=
  (directory_empty_query_returns_all (some "employee") none seededEmployees rfl).2
    ⟨.userHash, "employee", "John Doe"⟩ rfl

/-- C9: against the ten seeded records the term "Engin" returns exactly the
four Engineering-department records (Alice Smith, Bob Jones, Eve Davis,
Hank Green) — which coincide with the records whose department is
"Engineering" or whose `job_title` contains "Engin" — with "QA Engineer"
matching and "Software Developer" not matching on the `job_title` field,
and no other records. -/
theorem search_engin_on_seeded :
    searchEmployees (some "Engin") seededEmployees =
      [⟨"Alice Smith", "Engineering", "alice@company.com", "555-0101", "Senior Engineer"⟩,
       ⟨"Bob Jones", "Engineering", "bob@company.com", "555-0102", "Software Developer"⟩,
       ⟨"Eve Davis", "Engineering", "eve@company.com", "555-0105", "DevOps Engineer"⟩,
       ⟨"Hank Green", "Engineering", "hank@company.com", "555-0108", "QA Engineer"⟩] ∧
    searchEmployees (some "Engin") seededEmployees =
      seededEmployees.filter (fun e => e.department == "Engineering"
        || decide (("Engin".data.map Char.toLower) <:+:
            (e.job_title.data.map Char.toLower))) ∧
    decide (("Engin".data.map Char.toLower) <:+:
      ("QA Engineer".data.map Char.toLower)) = true ∧
    decide (("Engin".data.map Char.toLower) <:+:
      ("Software Developer".data.map Char.toLower)) = false := by
  decide

/-- C10: a failed login (unknown handle, or known handle with a wrong
secret) leaves the session state exactly as it was — it neither
establishes a session nor clears or alters an existing one. -/
theorem failed_login_preserves_session (session : Option String)
    (username password : String)
    (h : ∀ u, lookupUser username = some u →
      checkpw password u.password_hash = false) :
    (login session username password).2 = session := by
  unfold login
  cases hk : lookupUser username with
  | none => rfl
  | some u =>
    dsimp only
    rw [if_neg (by simp [h u hk])]

/-- Witness for C10: a wrong-password attempt on "employee" leaves a
pre-existing "admin" session untouched. -/
theorem failed_login_preserves_session_witness :
    (login (some "admin") "employee" "badpass").2 = some "admin" := by
  apply failed_login_preserves_session
  intro u hu
  have hc : lookupUser "employee" = some ⟨.userHash, "employee", "John Doe"⟩ := rfl
  rw [hc] at hu
  cases hu
  decide

end DirectoryService
